import Mathlib

/-!
Verification development for the gRPC interceptor package
(pkg/rpc/interceptor.go of Dragonfly2).

The file shallowly embeds the interceptor logic: Go errors become an
inductive type wrapped in Option (none is Go's nil error), the token
bucket becomes an explicit state record threaded through each call,
and side effects (Refresh invocations, one-time construction of the
tracing interceptors) are recorded in explicit traces or counters so
that claims about "invoked exactly once" are provable statements.
-/

namespace Rpc

/-- gRPC status codes, as in google.golang.org/grpc/codes. -/
inductive Code where
  | OK
  | Canceled
  | Unknown
  | InvalidArgument
  | DeadlineExceeded
  | NotFound
  | AlreadyExists
  | PermissionDenied
  | ResourceExhausted
  | FailedPrecondition
  | Aborted
  | OutOfRange
  | Unimplemented
  | Internal
  | Unavailable
  | DataLoss
  | Unauthenticated
  deriving DecidableEq, Repr

/-- A non-nil Go error value as the interceptors see it: either an error
carrying a gRPC status (a status.Error) or any other error value.  A Go
error variable is `Option GoError`, with none standing for nil. -/
inductive GoError where
  | statusErr (code : Code) (msg : String)
  | plainErr (msg : String)
  deriving DecidableEq, Repr

/-- status.FromError of grpc-go, as consumed by the refresher
interceptors: a nil error yields the nil status, whose Code() is OK,
with ok = true; an error carrying a gRPC status yields that status with
ok = true; any other error yields an Unknown status with ok = false. -/
def fromError : Option GoError → Code × Bool
  | none => (Code.OK, true)
  | some (GoError.statusErr c _) => (c, true)
  | some (GoError.plainErr _) => (Code.Unknown, false)

/-- A client stream handle, identified by an id so that distinct handles
are distinguishable values. -/
structure ClientStream where
  id : Nat
  deriving DecidableEq, Repr

/-- RefresherUnaryClientInterceptor from src: runs the invoker, and when
status.FromError reports ok and the code is ResourceExhausted or
Unavailable, calls r.Refresh(), discarding its result; the invoker's
error is returned unchanged.  `invokerErr` is the invoker's result and
`refreshErr` is the result Refresh() would produce.  The second
component records each Refresh() invocation together with the outcome
the code threw away. -/
def RefresherUnaryClientInterceptor (refreshErr : Option GoError)
    (invokerErr : Option GoError) : Option GoError × List (Option GoError) :=
  let s := fromError invokerErr
  let refreshCalls :=
    if s.snd && (s.fst == Code.ResourceExhausted || s.fst == Code.Unavailable) then
      [refreshErr]
    else
      []
  (invokerErr, refreshCalls)

/-- RefresherStreamClientInterceptor from src: same trigger logic as the
unary variant, and the pair (clientStream, err) produced by the streamer
is returned as-is in every case. -/
def RefresherStreamClientInterceptor (refreshErr : Option GoError)
    (streamerStream : Option ClientStream) (streamerErr : Option GoError) :
    (Option ClientStream × Option GoError) × List (Option GoError) :=
  let s := fromError streamerErr
  let refreshCalls :=
    if s.snd && (s.fst == Code.ResourceExhausted || s.fst == Code.Unavailable) then
      [refreshErr]
    else
      []
  ((streamerStream, streamerErr), refreshCalls)

/-- Modelled from the spec: the token bucket of github.com/juju/ratelimit,
which the src file consumes as a black box (spec section 3: "holds current
capacity out of a fixed burst size, refilling at a fixed rate
(tokens/second) ... mutated atomically on each admission check").
`avail` is the number of immediately available tokens. -/
structure Bucket where
  rate : ℚ
  capacity : ℤ
  avail : ℤ
  deriving DecidableEq, Repr

/-- Modelled from the spec: ratelimit.NewBucketWithRate, not under src/.
Spec section 4.2: construction validates ratePerSecond > 0 and burst ≥ 1
and rejects other inputs (the external constructor panics on them; a
panic is modelled as none).  A fresh bucket starts with a full burst. -/
def NewBucketWithRate (rate : ℚ) (capacity : ℤ) : Option Bucket :=
  if 0 < rate ∧ 1 ≤ capacity then some ⟨rate, capacity, capacity⟩ else none

/-- Modelled from the spec: Bucket.TakeAvailable, not under src/; it
atomically consumes up to `n` immediately available tokens and returns
how many it removed, never leaving a negative balance. -/
def Bucket.takeAvailable (b : Bucket) (n : ℤ) : ℤ × Bucket :=
  let took := max 0 (min n b.avail)
  (took, { b with avail := b.avail - took })

/-- Modelled from the spec: the refill after `elapsed` seconds, not under
src/ ("refilling at a fixed rate (tokens/second)"), capped at the burst
capacity; only whole tokens become spendable. -/
def Bucket.adjust (b : Bucket) (elapsed : ℚ) : Bucket :=
  { b with avail := min b.capacity (b.avail + Int.floor (elapsed * b.rate)) }

/-- RateLimiterInterceptor from src: holds the token bucket. -/
structure RateLimiterInterceptor where
  tokenBucket : Bucket
  deriving DecidableEq, Repr

/-- NewRateLimiterInterceptor from src: delegates construction directly
to ratelimit.NewBucketWithRate, with no validation of its own. -/
def NewRateLimiterInterceptor (qps : ℚ) (burst : ℤ) :
    Option RateLimiterInterceptor :=
  (NewBucketWithRate qps burst).map RateLimiterInterceptor.mk

/-- Limit from src: returns true exactly when tokenBucket.TakeAvailable(1)
returns 0, and false otherwise; the mutated bucket is returned alongside
(the Go method mutates it in place). -/
def RateLimiterInterceptor.Limit (r : RateLimiterInterceptor) :
    Bool × RateLimiterInterceptor :=
  let t := r.tokenBucket.takeAvailable 1
  (t.fst == 0, ⟨t.snd⟩)

/-- Modelled from the spec: the interceptor wrapping that consumes Limit
(the middleware calling it is not under src/).  Spec section 4.2: "if
TryAdmit() is false, the call must short-circuit with a resource
exhausted failure without invoking the next stage; otherwise it proceeds
normally and the result is passed through unmodified", where TryAdmit is
admission, i.e. the negation of Limit.  `next` is the next stage's
result; the middle component counts next-stage invocations. -/
def rateLimitUnaryWrap (r : RateLimiterInterceptor) (next : Option GoError) :
    Option GoError × Nat × RateLimiterInterceptor :=
  let l := r.Limit
  if l.fst then
    (some (GoError.statusErr Code.ResourceExhausted "rate limit exceeded"), 0, l.snd)
  else
    (next, 1, l.snd)

/-- Iterated admission attempts through the same limiter: each step calls
Limit once and records the admission outcome (true means admitted, that
is, Limit returned false). -/
def consecutiveAdmits : RateLimiterInterceptor → Nat → List Bool × RateLimiterInterceptor
  | r, 0 => ([], r)
  | r, n + 1 =>
    let l := r.Limit
    let q := consecutiveAdmits l.snd n
    ((!l.fst) :: q.fst, q.snd)

/-- ConvertErrorUnaryServerInterceptor from src: runs the handler, and on
a non-nil error returns the handler's reply h together with the converted
error; on success returns (h, nil).  `conv` stands for
dferrors.ConvertDfErrorToGRPCError, repository code not under src/; the
spec (sections 3 and 4.3) fixes it only as a total error-to-error
mapping, so it is an abstract parameter here.  The reply is nilable. -/
def ConvertErrorUnaryServerInterceptor (conv : GoError → GoError)
    (h : Option String) (err : Option GoError) :
    Option String × Option GoError :=
  match err with
  | some e => (h, some (conv e))
  | none => (h, none)

/-- ConvertErrorStreamServerInterceptor from src: on a non-nil handler
error returns the converted error, and nil otherwise. -/
def ConvertErrorStreamServerInterceptor (conv : GoError → GoError)
    (err : Option GoError) : Option GoError :=
  match err with
  | some e => some (conv e)
  | none => none

/-- ConvertErrorUnaryClientInterceptor from src: on a non-nil invoker
error returns the converted error (conv standing for
dferrors.ConvertGRPCErrorToDfError, not under src/), and nil otherwise. -/
def ConvertErrorUnaryClientInterceptor (conv : GoError → GoError)
    (err : Option GoError) : Option GoError :=
  match err with
  | some e => some (conv e)
  | none => none

/-- ConvertErrorStreamClientInterceptor from src: on a non-nil streamer
error it returns (nil, converted error), dropping whatever stream handle
the streamer produced; on success it returns (s, nil). -/
def ConvertErrorStreamClientInterceptor (conv : GoError → GoError)
    (s : Option ClientStream) (err : Option GoError) :
    Option ClientStream × Option GoError :=
  match err with
  | some e => (none, some (conv e))
  | none => (s, none)

/-- The package-level state around the otel interceptors from src: the
two interceptor variables, the sync.Once flag, plus bookkeeping that
makes identity and construction count observable: constructed instances
are identified by the value of a fresh counter at construction time (so
two distinct constructions would yield distinct identities), and
onceRuns counts executions of the once-guarded body. -/
structure OtelState where
  interceptorsInitialized : Bool
  otelUnaryInterceptor : Option Nat
  otelStreamInterceptor : Option Nat
  fresh : Nat
  onceRuns : Nat
  deriving DecidableEq, Repr

/-- The zero value of the package state: flag unset, both interceptor
variables nil, nothing constructed yet. -/
def initialOtelState : OtelState :=
  ⟨false, none, none, 0, 0⟩

/-- ensureOTELInterceptorInitialized from src: under
interceptorsInitialized.Do, constructs both otel interceptors; the body
runs only when the once flag is not yet set, and sync.Once runs it
atomically. -/
def ensureOTELInterceptorInitialized (s : OtelState) : OtelState :=
  if s.interceptorsInitialized then
    s
  else
    { interceptorsInitialized := true
      otelUnaryInterceptor := some s.fresh
      otelStreamInterceptor := some (s.fresh + 1)
      fresh := s.fresh + 2
      onceRuns := s.onceRuns + 1 }

/-- OTELUnaryClientInterceptor from src: ensures initialization, then
returns the shared unary interceptor variable. -/
def OTELUnaryClientInterceptor (s : OtelState) : Option Nat × OtelState :=
  let s1 := ensureOTELInterceptorInitialized s
  (s1.otelUnaryInterceptor, s1)

/-- OTELStreamClientInterceptor from src: ensures initialization, then
returns the shared stream interceptor variable. -/
def OTELStreamClientInterceptor (s : OtelState) : Option Nat × OtelState :=
  let s1 := ensureOTELInterceptorInitialized s
  (s1.otelStreamInterceptor, s1)

/-- Which of the two tracing getters a caller invokes. -/
inductive GetterCall where
  | unary
  | stream
  deriving DecidableEq, Repr

/-- Runs a sequence of getter calls, threading the package state.  Since
sync.Once makes the guarded body atomic, any concurrent schedule of
getter calls is observationally some sequential order of these steps. -/
def runGetters : List GetterCall → OtelState → List (Option Nat) × OtelState
  | [], s => ([], s)
  | GetterCall.unary :: cs, s =>
    let p := OTELUnaryClientInterceptor s
    let q := runGetters cs p.snd
    (p.fst :: q.fst, q.snd)
  | GetterCall.stream :: cs, s =>
    let p := OTELStreamClientInterceptor s
    let q := runGetters cs p.snd
    (p.fst :: q.fst, q.snd)

/-- The value every getter call returns once the state is settled. -/
def getterValue : GetterCall → Option Nat
  | GetterCall.unary => some 0
  | GetterCall.stream => some 1

/-- The package state after the first getter call from the zero state:
initialized, unary instance 0, stream instance 1, one construction. -/
def settledOtelState : OtelState :=
  ⟨true, some 0, some 1, 2, 1⟩

/-- C1 counterexample: taking the spec's TryAdmit to be Limit, the claim
says Limit returns true when a token is available.  On the freshly
constructed burst-1 rate-1 limiter a token is available, yet Limit
returns false; and on the drained limiter that results, Limit returns
true although the claim says false. -/
theorem c1_counterexample :
    NewRateLimiterInterceptor 1 1 = some ⟨⟨1, 1, 1⟩⟩
    ∧ 0 < (Bucket.mk 1 1 1).avail
    ∧ (RateLimiterInterceptor.Limit ⟨⟨1, 1, 1⟩⟩).fst = false
    ∧ ((RateLimiterInterceptor.Limit ⟨⟨1, 1, 1⟩⟩).snd.Limit).fst = true := by
  refine ⟨?_, by decide, by decide, by decide⟩
  simp [NewRateLimiterInterceptor, NewBucketWithRate]

/-- C1 amended: Limit attempts to consume one token and returns false
(admit) exactly when a token was available, in which case one token is
consumed, and true (reject, i.e. the request is to be limited) exactly
when no token was available: the boolean is the negation of the spec's
TryAdmit. -/
theorem c1_limit_polarity (r : RateLimiterInterceptor)
    (hnn : 0 ≤ r.tokenBucket.avail) :
    (r.Limit.fst = true ↔ r.tokenBucket.avail = 0)
    ∧ (r.Limit.fst = false →
        r.Limit.snd.tokenBucket.avail = r.tokenBucket.avail - 1) := by
  obtain ⟨b⟩ := r
  obtain ⟨R, C, a⟩ := b
  simp only [RateLimiterInterceptor.Limit, Bucket.takeAvailable, beq_iff_eq,
    beq_eq_false_iff_ne, ne_eq] at *
  constructor
  · omega
  · intro h
    omega

/-- C1 witness: the polarity theorem at the concrete limiter of rate 1,
capacity 2, two available tokens. -/
theorem c1_limit_polarity_witness :
    (0 : ℤ) ≤ (Bucket.mk 1 2 2).avail
    ∧ (((RateLimiterInterceptor.mk ⟨1, 2, 2⟩).Limit.fst = true
          ↔ (RateLimiterInterceptor.mk ⟨1, 2, 2⟩).tokenBucket.avail = 0)
      ∧ ((RateLimiterInterceptor.mk ⟨1, 2, 2⟩).Limit.fst = false →
          (RateLimiterInterceptor.mk ⟨1, 2, 2⟩).Limit.snd.tokenBucket.avail
            = (RateLimiterInterceptor.mk ⟨1, 2, 2⟩).tokenBucket.avail - 1)) :=
  ⟨by decide, c1_limit_polarity ⟨⟨1, 2, 2⟩⟩ (by decide)⟩

/-- C2: construction succeeds exactly when ratePerSecond > 0 and
burst ≥ 1; every other input, a rate of 0 included, is rejected at
construction. -/
theorem c2_construction_validation (qps : ℚ) (burst : ℤ) :
    (NewRateLimiterInterceptor qps burst).isSome = true
      ↔ (0 < qps ∧ 1 ≤ burst) := by
  unfold NewRateLimiterInterceptor NewBucketWithRate
  split_ifs with hc
  · simpa using hc
  · simpa using hc

/-- C4: for both refresher interceptors, the underlying result (error,
and for the stream variant the stream handle as well) is returned
unchanged, Refresh() is invoked exactly once when the result carries
wire status ResourceExhausted or Unavailable, and never for any other
status code. -/
theorem c4_refresh_trigger_set (refreshErr invokerErr : Option GoError)
    (st : Option ClientStream) :
    (RefresherUnaryClientInterceptor refreshErr invokerErr).fst = invokerErr
    ∧ (RefresherStreamClientInterceptor refreshErr st invokerErr).fst
        = (st, invokerErr)
    ∧ (RefresherUnaryClientInterceptor refreshErr invokerErr).snd.length
        = (if (fromError invokerErr).fst = Code.ResourceExhausted
              ∨ (fromError invokerErr).fst = Code.Unavailable then 1 else 0)
    ∧ (RefresherStreamClientInterceptor refreshErr st invokerErr).snd
        = (RefresherUnaryClientInterceptor refreshErr invokerErr).snd := by
  refine ⟨rfl, rfl, ?_, rfl⟩
  rcases invokerErr with _ | e
  · rfl
  · rcases e with ⟨c, m⟩ | m
    · cases c <;> rfl
    · rfl

/-- C5: the value a refresher interceptor returns is independent of the
outcome of Refresh(): wrapping the same underlying invocation with a
refresher whose Refresh succeeds and one whose Refresh fails yields
identical returned results. -/
theorem c5_refresh_outcome_independence (r1 r2 invokerErr : Option GoError)
    (st : Option ClientStream) :
    (RefresherUnaryClientInterceptor r1 invokerErr).fst
      = (RefresherUnaryClientInterceptor r2 invokerErr).fst
    ∧ (RefresherStreamClientInterceptor r1 st invokerErr).fst
      = (RefresherStreamClientInterceptor r2 st invokerErr).fst :=
  ⟨rfl, rfl⟩

/-- C6: every ConvertError interceptor passes success through with the
payload unaltered, and maps a failure to a failure whose error is the
translation of the original error — never dropping it and never turning
it into success. -/
theorem c6_translation_total_passthrough (conv : GoError → GoError)
    (h : Option String) (st : Option ClientStream) (e : GoError) :
    ConvertErrorUnaryServerInterceptor conv h none = (h, none)
    ∧ ConvertErrorStreamServerInterceptor conv none = none
    ∧ ConvertErrorUnaryClientInterceptor conv none = none
    ∧ ConvertErrorStreamClientInterceptor conv st none = (st, none)
    ∧ ConvertErrorUnaryServerInterceptor conv h (some e) = (h, some (conv e))
    ∧ ConvertErrorStreamServerInterceptor conv (some e) = some (conv e)
    ∧ ConvertErrorUnaryClientInterceptor conv (some e) = some (conv e)
    ∧ (ConvertErrorStreamClientInterceptor conv st (some e)).snd = some (conv e)
    ∧ (ConvertErrorUnaryServerInterceptor conv h (some e)).snd ≠ none :=
  ⟨rfl, rfl, rfl, rfl, rfl, rfl, rfl, rfl, by
    simp [ConvertErrorUnaryServerInterceptor]⟩

/-- C9: on streamer failure, ConvertErrorStreamClientInterceptor returns
a nil stream handle with the translated error, discarding the handle the
streamer produced, whereas RefresherStreamClientInterceptor returns the
streamer's handle as-is alongside the original error. -/
theorem c9_stream_handle_discarded (conv : GoError → GoError)
    (refreshErr : Option GoError) (st : ClientStream) (e : GoError) :
    ConvertErrorStreamClientInterceptor conv (some st) (some e)
      = (none, some (conv e))
    ∧ (RefresherStreamClientInterceptor refreshErr (some st) (some e)).fst
      = (some st, some e) :=
  ⟨rfl, rfl⟩

/-- C10: ConvertErrorUnaryServerInterceptor returns the handler's reply
value unchanged in both outcomes — on failure it keeps the handler's
reply (it does not replace it with nil) next to the translated error, on
success it returns the reply with a nil error — so only the error
component is ever modified. -/
theorem c10_reply_frame (conv : GoError → GoError) (h : Option String)
    (err : Option GoError) (e : GoError) :
    (ConvertErrorUnaryServerInterceptor conv h err).fst = h
    ∧ (ConvertErrorUnaryServerInterceptor conv h none).snd = none
    ∧ (ConvertErrorUnaryServerInterceptor conv h (some e)).snd
        = some (conv e) := by
  refine ⟨?_, rfl, rfl⟩
  cases err <;> rfl

/-- C3: when no token is available (TryAdmit would be false, that is,
Limit is true), the wrapped call short-circuits with a resource-exhausted
failure and the next stage is invoked zero times, with the limiter state
unchanged; when a token is available, the next stage is invoked exactly
once and its result is returned unmodified. -/
theorem c3_short_circuit (r : RateLimiterInterceptor) (next : Option GoError)
    (hnn : 0 ≤ r.tokenBucket.avail) :
    (r.tokenBucket.avail = 0 →
      rateLimitUnaryWrap r next
        = (some (GoError.statusErr Code.ResourceExhausted "rate limit exceeded"),
           0, r))
    ∧ (0 < r.tokenBucket.avail →
      rateLimitUnaryWrap r next = (next, 1, r.Limit.snd)) := by
  obtain ⟨b⟩ := r
  obtain ⟨R, C, a⟩ := b
  constructor
  · intro h0
    have ha : a = 0 := h0
    subst ha
    simp [rateLimitUnaryWrap, RateLimiterInterceptor.Limit, Bucket.takeAvailable]
  · intro hpos
    have ha : (0 : ℤ) < a := hpos
    have ht : max 0 (min 1 a) = 1 := by omega
    simp [rateLimitUnaryWrap, RateLimiterInterceptor.Limit, Bucket.takeAvailable, ht]

/-- C3 witness: the short-circuit theorem at the drained limiter of rate
1 and burst 1, with a successful next stage. -/
theorem c3_short_circuit_witness :
    (0 : ℤ) ≤ (RateLimiterInterceptor.mk ⟨1, 1, 0⟩).tokenBucket.avail
    ∧ (((RateLimiterInterceptor.mk ⟨1, 1, 0⟩).tokenBucket.avail = 0 →
          rateLimitUnaryWrap ⟨⟨1, 1, 0⟩⟩ none
            = (some (GoError.statusErr Code.ResourceExhausted "rate limit exceeded"),
               0, ⟨⟨1, 1, 0⟩⟩))
      ∧ (0 < (RateLimiterInterceptor.mk ⟨1, 1, 0⟩).tokenBucket.avail →
          rateLimitUnaryWrap ⟨⟨1, 1, 0⟩⟩ none
            = (none, 1, (RateLimiterInterceptor.mk ⟨1, 1, 0⟩).Limit.snd))) :=
  ⟨by decide, c3_short_circuit ⟨⟨1, 1, 0⟩⟩ none (by decide)⟩

/-- Once the tracing state is settled, every further getter call returns
the already constructed instance and leaves the state untouched. -/
theorem runGetters_settled (cs : List GetterCall) :
    runGetters cs settledOtelState = (cs.map getterValue, settledOtelState) := by
  induction cs with
  | nil => rfl
  | cons c cs ih =>
    have he : ensureOTELInterceptorInitialized settledOtelState
        = settledOtelState := rfl
    cases c <;>
      simp [runGetters, OTELUnaryClientInterceptor, OTELStreamClientInterceptor,
        he, ih, getterValue] <;> rfl

/-- C7: for every nonempty sequence of tracing getter calls starting
from the uninitialized package state, each OTELUnaryClientInterceptor
call returns the one shared unary instance and each
OTELStreamClientInterceptor call the one shared stream instance, and the
once-guarded construction body runs exactly once. -/
theorem c7_idempotent_getters (cs : List GetterCall) (hne : cs ≠ []) :
    (runGetters cs initialOtelState).fst = cs.map getterValue
    ∧ (runGetters cs initialOtelState).snd.onceRuns = 1 := by
  cases cs with
  | nil => exact absurd rfl hne
  | cons c cs =>
    have h1 : ensureOTELInterceptorInitialized initialOtelState
        = settledOtelState := rfl
    cases c <;>
      simp [runGetters, OTELUnaryClientInterceptor, OTELStreamClientInterceptor,
        h1, runGetters_settled, getterValue] <;>
      exact ⟨rfl, rfl⟩

/-- C7 witness: three getter calls, mixing both getters, all return the
one constructed instance for their shape and construction ran once. -/
theorem c7_idempotent_getters_witness :
    ([GetterCall.unary, GetterCall.stream, GetterCall.unary]
        ≠ ([] : List GetterCall))
    ∧ ((runGetters [GetterCall.unary, GetterCall.stream, GetterCall.unary]
          initialOtelState).fst
        = [GetterCall.unary, GetterCall.stream, GetterCall.unary].map getterValue
      ∧ (runGetters [GetterCall.unary, GetterCall.stream, GetterCall.unary]
          initialOtelState).snd.onceRuns = 1) :=
  ⟨by decide,
    c7_idempotent_getters [GetterCall.unary, GetterCall.stream, GetterCall.unary]
      (by decide)⟩

/-- Iterated admissions on a bucket holding a ≥ 0 tokens: the first
min n a attempts are admitted, every later attempt is rejected, and
exactly min n a tokens are consumed in total. -/
theorem consecutiveAdmits_run (n : ℕ) (R : ℚ) (C : ℤ) :
    ∀ a : ℤ, 0 ≤ a →
      consecutiveAdmits ⟨⟨R, C, a⟩⟩ n
        = (List.replicate (min n a.toNat) true
            ++ List.replicate (n - a.toNat) false,
           ⟨⟨R, C, a - min (n : ℤ) a⟩⟩) := by
  induction n with
  | zero =>
    intro a ha
    have hm : min (0 : ℤ) a = 0 := by omega
    simp [consecutiveAdmits, hm]
  | succ n ih =>
    intro a ha
    rcases eq_or_lt_of_le ha with h0 | hpos
    · have ha0 : a = 0 := h0.symm
      subst ha0
      have hstep : (RateLimiterInterceptor.mk ⟨R, C, 0⟩).Limit
          = (true, ⟨⟨R, C, 0⟩⟩) := by
        simp [RateLimiterInterceptor.Limit, Bucket.takeAvailable]
      have hz : min ((n : ℤ) + 1) 0 = 0 := by omega
      have hz2 : min (n : ℤ) 0 = 0 := by omega
      simp [consecutiveAdmits, hstep, ih 0 le_rfl, hz, hz2, List.replicate_succ]
    · have hstep : (RateLimiterInterceptor.mk ⟨R, C, a⟩).Limit
          = (false, ⟨⟨R, C, a - 1⟩⟩) := by
        have ht : max 0 (min 1 a) = 1 := by omega
        simp [RateLimiterInterceptor.Limit, Bucket.takeAvailable, ht]
      have ih1 := ih (a - 1) (by omega)
      have e1 : min (n + 1) a.toNat = min n ((a - 1).toNat) + 1 := by omega
      have e2 : n + 1 - a.toNat = n - ((a - 1).toNat) := by omega
      have e3 : a - min ((n : ℤ) + 1) a = (a - 1) - min (n : ℤ) (a - 1) := by omega
      simp [consecutiveAdmits, hstep, ih1, e1, e2, List.replicate_succ]
      omega

/-- C8: a limiter of burst B and rate R admits exactly B consecutive
immediate attempts, rejects the (B+1)-th, and after 1/R seconds of
refill admits exactly one more attempt before rejecting again. -/
theorem c8_token_bucket_admission (R : ℚ) (B : ℤ) (hR : 0 < R) (hB : 1 ≤ B) :
    NewRateLimiterInterceptor R B = some ⟨⟨R, B, B⟩⟩
    ∧ (consecutiveAdmits ⟨⟨R, B, B⟩⟩ (B.toNat + 1)).fst
        = List.replicate B.toNat true ++ [false]
    ∧ (consecutiveAdmits
        ⟨(consecutiveAdmits ⟨⟨R, B, B⟩⟩ (B.toNat + 1)).snd.tokenBucket.adjust
          (1 / R)⟩ 2).fst
      = [true, false] := by
  have hrun := consecutiveAdmits_run (B.toNat + 1) R B B (by omega)
  have hmin1 : min (B.toNat + 1) B.toNat = B.toNat := by omega
  have hmin2 : B.toNat + 1 - B.toNat = 1 := by omega
  refine ⟨?_, ?_, ?_⟩
  · simp [NewRateLimiterInterceptor, NewBucketWithRate, hR, hB]
  · rw [hrun]
    simp [hmin1, hmin2]
  · have hsnd : (consecutiveAdmits ⟨⟨R, B, B⟩⟩ (B.toNat + 1)).snd
        = ⟨⟨R, B, B - min ((B.toNat + 1 : ℕ) : ℤ) B⟩⟩ := by rw [hrun]
    have hdrained : B - min ((B.toNat + 1 : ℕ) : ℤ) B = 0 := by omega
    have hfl2 : (1 / R) * R = (1 : ℚ) := one_div_mul_cancel (ne_of_gt hR)
    have hadj : (Bucket.mk R B (B - min ((B.toNat + 1 : ℕ) : ℤ) B)).adjust (1 / R)
        = ⟨R, B, 1⟩ := by
      simp only [Bucket.adjust, hdrained, hfl2, Int.floor_one, zero_add,
        Bucket.mk.injEq]
      exact ⟨trivial, trivial, by omega⟩
    rw [hsnd]
    simp only [hadj]
    rw [consecutiveAdmits_run 2 R B 1 (by omega)]
    rfl

/-- C8 witness: the admission theorem at rate 1 and burst 2. -/
theorem c8_token_bucket_admission_witness :
    (0 : ℚ) < 1 ∧ (1 : ℤ) ≤ 2
    ∧ (NewRateLimiterInterceptor 1 2 = some ⟨⟨1, 2, 2⟩⟩
      ∧ (consecutiveAdmits ⟨⟨1, 2, 2⟩⟩ ((2 : ℤ).toNat + 1)).fst
          = List.replicate (2 : ℤ).toNat true ++ [false]
      ∧ (consecutiveAdmits
          ⟨(consecutiveAdmits ⟨⟨1, 2, 2⟩⟩ ((2 : ℤ).toNat + 1)).snd.tokenBucket.adjust
            (1 / 1)⟩ 2).fst
        = [true, false]) :=
  ⟨by norm_num, by norm_num,
    c8_token_bucket_admission 1 2 (by norm_num) (by norm_num)⟩

end Rpc
